import Mathlib

/-!
Verification of `spoofer_collector.py` (CAIDA Spoofer data collection tool).

The Python source is shallowly embedded below: session records become a
structure of optional string fields, pages carry a member list plus optional
pagination metadata, the per-class output files become lists of written lines,
and the pagination loop of `collect_data` becomes a fuel-indexed recursion
whose result records the final statistics, the file contents, the exact list
of URLs fetched, and whether the loop exited on its own.
-/

/-- Python truthiness of `session.get(key)` for a string-valued key:
`None` and the empty string are falsy. -/
def truthyOptStr : Option String → Bool
  | some s => !s.isEmpty
  | none => false

/-- Python truthiness of `self.estimated_total_pages` (an `int` or `None`):
`None` and `0` are falsy. -/
def truthyOptInt : Option Int → Bool
  | some n => n != 0
  | none => false

/-- One session record of the API (`hydra:member` entry).  All fields are
optional; values are taken post-stringification. -/
structure Session where
  session : Option String
  asn4 : Option String
  client4 : Option String
  country : Option String
  privatespoof : Option String
  routedspoof : Option String
  timestamp : Option String
deriving DecidableEq

/-- The `hydra:view` pagination metadata of a page: the optional
`hydra:last` and `hydra:next` references. -/
structure HydraView where
  last : Option String
  next : Option String
deriving DecidableEq

/-- One page of API data: the `hydra:member` record list (absent key read as
`[]` by `data.get("hydra:member", [])`) and the optional `hydra:view` block. -/
structure Page where
  member : List Session
  view : Option HydraView
deriving DecidableEq

/-- Rendering of a Python value that may be `None` inside an f-string:
`session.get("session")` has no default, so a missing value prints `None`. -/
def pyStrOpt : Option String → String
  | some v => v
  | none => "None"

/-- `SpooferCollector.format_record`: the single formatted output line for a
session record.  Every field except the session identifier defaults to
"N/A" via `session.get(key, "N/A")`; the session identifier is fetched with
no default and interpolated directly into the report URL. -/
def format_record (s : Session) : String :=
  let session_id := pyStrOpt s.session
  let asn4 := s.asn4.getD "N/A"
  let client4 := s.client4.getD "N/A"
  let country := s.country.getD "N/A"
  let privatespoof := s.privatespoof.getD "N/A"
  let routedspoof := s.routedspoof.getD "N/A"
  let timestamp := s.timestamp.getD "N/A"
  "Session: https://spoofer.caida.org/report.php?sessionid=" ++ session_id ++
    ", ASN4 number: " ++ asn4 ++
    ", Client4: " ++ client4 ++
    ", Country: " ++ country ++
    ", Privatespoof: " ++ privatespoof ++
    ", Routedspoof: " ++ routedspoof ++
    ", Timestamp: " ++ timestamp

/-- The loop body of `SpooferCollector.process_data` for one session record:
the lines this record contributes to the routed file (first component) and to
the private file (second component).  Only records with a truthy `client4`
are considered; each spoof field is compared to the literal "received". -/
def processSession (s : Session) : List String × List String :=
  if truthyOptStr s.client4 then
    ((if s.routedspoof = some "received" then [format_record s] else []),
     (if s.privatespoof = some "received" then [format_record s] else []))
  else ([], [])

/-- The outcome of `SpooferCollector.process_data` on one page: the lines
written to each file and the two per-page counters it returns. -/
structure PageOutput where
  routed_lines : List String
  private_lines : List String
  routed_count : Nat
  private_count : Nat
deriving DecidableEq

/-- `SpooferCollector.process_data`: iterate over the page's records in
order, appending each match to the corresponding file and bumping the
corresponding counter. -/
def process_data : List Session → PageOutput
  | [] => ⟨[], [], 0, 0⟩
  | s :: rest =>
    let head := processSession s
    let tailOut := process_data rest
    ⟨head.1 ++ tailOut.routed_lines, head.2 ++ tailOut.private_lines,
     head.1.length + tailOut.routed_count, head.2.length + tailOut.private_count⟩

/-- C1: for an eligible record (truthy `client4`), a routed line is written
iff `routedspoof` is exactly "received" and a private line iff
`privatespoof` is exactly "received"; a record matching both contributes
exactly one line, with the same text, to each file; and within a page every
record contributes its lines and counts independently of the rest. -/
theorem claim1_classification (s : Session) (h : truthyOptStr s.client4 = true) :
    ((processSession s).1 = (if s.routedspoof = some "received" then [format_record s] else []) ∧
     (processSession s).2 = (if s.privatespoof = some "received" then [format_record s] else [])) ∧
    (s.routedspoof = some "received" → s.privatespoof = some "received" →
      processSession s = ([format_record s], [format_record s])) ∧
    (∀ rest, process_data (s :: rest) =
      ⟨(processSession s).1 ++ (process_data rest).routed_lines,
       (processSession s).2 ++ (process_data rest).private_lines,
       (processSession s).1.length + (process_data rest).routed_count,
       (processSession s).2.length + (process_data rest).private_count⟩) := by
  refine ⟨⟨?_, ?_⟩, ?_, ?_⟩
  · simp [processSession, h]
  · simp [processSession, h]
  · intro hr hp
    simp [processSession, h, hr, hp]
  · intro rest
    simp [process_data]

/-- Witness for C1 at a concrete eligible record matching both predicates. -/
theorem claim1_classification_witness :
    processSession ⟨some "42", some "65000", some "1.2.3.4", some "US",
        some "received", some "received", some "2024-01-01"⟩ =
      ([format_record ⟨some "42", some "65000", some "1.2.3.4", some "US",
          some "received", some "received", some "2024-01-01"⟩],
       [format_record ⟨some "42", some "65000", some "1.2.3.4", some "US",
          some "received", some "received", some "2024-01-01"⟩]) :=
  (claim1_classification _ (by decide)).2.1 rfl rfl

/-- C4: a record whose `client4` is absent or empty contributes no line to
either file and nothing to either counter, whatever its other fields. -/
theorem claim4_ineligible_skipped (s : Session)
    (h : s.client4 = none ∨ s.client4 = some "") :
    processSession s = ([], []) ∧
    ∀ rest, process_data (s :: rest) = process_data rest := by
  have hfalse : truthyOptStr s.client4 = false := by
    rcases h with h | h <;> simp [h, truthyOptStr, String.isEmpty]
  constructor
  · simp [processSession, hfalse]
  · intro rest
    simp [process_data, processSession, hfalse]

/-- Witness for C4: an empty `client4` with both spoof fields "received"
still yields nothing. -/
theorem claim4_ineligible_skipped_witness :
    processSession ⟨some "42", some "65000", some "", some "US",
        some "received", some "received", some "2024-01-01"⟩ = ([], []) :=
  (claim4_ineligible_skipped _ (Or.inr rfl)).1

/-- C9 counterexample: on a record with every field missing, the formatted
line renders the missing session identifier as "None" (the Python `None`
interpolated into the URL), not as the "N/A" placeholder the claim asserts
for every missing field. -/
theorem claim9_counterexample :
    format_record ⟨none, none, none, none, none, none, none⟩ =
      "Session: https://spoofer.caida.org/report.php?sessionid=None, ASN4 number: N/A, Client4: N/A, Country: N/A, Privatespoof: N/A, Routedspoof: N/A, Timestamp: N/A" ∧
    format_record ⟨none, none, none, none, none, none, none⟩ ≠
      "Session: https://spoofer.caida.org/report.php?sessionid=N/A, ASN4 number: N/A, Client4: N/A, Country: N/A, Privatespoof: N/A, Routedspoof: N/A, Timestamp: N/A" := by
  constructor
  · rfl
  · decide

/-- C9 amended: in any session record, each field among ASN number, client
address, country, private-spoof, routed-spoof and timestamp that is missing
is rendered as the literal placeholder "N/A" — the formatted line is
identical to that of the same record carrying the literal string "N/A" in
that one field — while a missing session identifier is rendered as the
literal "None" inside the session URL.  Each conjunct fixes only the one
field it is about; all other fields are arbitrary. -/
theorem claim9_missing_fields (s : Session) :
    (s.session = none →
      format_record s = format_record { s with session := some "None" }) ∧
    (s.asn4 = none →
      format_record s = format_record { s with asn4 := some "N/A" }) ∧
    (s.client4 = none →
      format_record s = format_record { s with client4 := some "N/A" }) ∧
    (s.country = none →
      format_record s = format_record { s with country := some "N/A" }) ∧
    (s.privatespoof = none →
      format_record s = format_record { s with privatespoof := some "N/A" }) ∧
    (s.routedspoof = none →
      format_record s = format_record { s with routedspoof := some "N/A" }) ∧
    (s.timestamp = none →
      format_record s = format_record { s with timestamp := some "N/A" }) := by
  refine ⟨?_, ?_, ?_, ?_, ?_, ?_, ?_⟩ <;> intro h <;>
    simp [format_record, h, pyStrOpt]

/-- Witness for the amended C9: a record missing only the session
identifier and the timestamp, with all other fields present. -/
theorem claim9_missing_fields_witness :
    format_record ⟨none, some "65000", some "1.2.3.4", some "US",
        some "blocked", some "received", none⟩ =
      format_record ⟨some "None", some "65000", some "1.2.3.4", some "US",
        some "blocked", some "received", none⟩ ∧
    format_record ⟨none, some "65000", some "1.2.3.4", some "US",
        some "blocked", some "received", none⟩ =
      format_record ⟨none, some "65000", some "1.2.3.4", some "US",
        some "blocked", some "received", some "N/A"⟩ :=
  ⟨(claim9_missing_fields _).1 rfl, (claim9_missing_fields _).2.2.2.2.2.2 rfl⟩

/-- Python `int(x)` on a real value: truncation toward zero, on the exact
rational model (`Rat.num.div Rat.den` is T-division). -/
def pyInt (q : ℚ) : Int := q.num.tdiv (q.den : Int)

/-- Floor of a rational, computably (`Int.fdiv` is floor division and the
denominator is positive). -/
def ratFloor (q : ℚ) : Int := q.num.fdiv (q.den : Int)

/-- Python `a % b` on real values: `a - b * floor(a / b)` (sign follows the
divisor). -/
def pyMod (a b : ℚ) : ℚ := a - b * (ratFloor (a / b) : ℚ)

/-- Two-digit zero padding, as in `%02d`. -/
def pad2 (n : Nat) : String := if n < 10 then "0" ++ toString n else toString n

/-- Round half to even to the nearest integer, the rounding Python's fixed
format applies. -/
def roundHalfEven (q : ℚ) : Int :=
  let f := ratFloor q
  let r := q - (f : ℚ)
  if r < 1 / 2 then f
  else if 1 / 2 < r then f + 1
  else if f % 2 = 0 then f else f + 1

/-- Python `f"{x:.2f}"` on the exact rational model: round half to even at
two decimals and print with exactly two fractional digits (a negative value
rounding to zero keeps its minus sign). -/
def formatFixed2 (q : ℚ) : String :=
  let n := roundHalfEven (q * 100)
  let sign := if q < 0 then "-" else ""
  let m := n.natAbs
  sign ++ toString (m / 100) ++ "." ++ pad2 (m % 100)

/-- Python `str(timedelta(seconds=n))`: normalise into days plus a
nonnegative remainder and print `[D day(s), ]H:MM:SS`. -/
def pyTimedeltaStr (n : Int) : String :=
  let days := n.fdiv 86400
  let rem := (n - 86400 * days).toNat
  let h := rem / 3600
  let m := rem % 3600 / 60
  let s := rem % 60
  let core := toString h ++ ":" ++ pad2 m ++ ":" ++ pad2 s
  if days = 0 then core
  else toString days ++ (if days = 1 ∨ days = -1 then " day, " else " days, ") ++ core

/-- The mutable statistics of a `SpooferCollector` instance. -/
structure RunStats where
  total_records : Nat
  total_routed : Nat
  total_private : Nat
  page : Nat
  pages_processed : Nat
  estimated_total_pages : Option Int
deriving DecidableEq

/-- `SpooferCollector.estimate_completion`, as a pure function of the
statistics and the elapsed wall-clock time (modelled exactly over ℚ).
Fewer than 2 pages give the placeholder; with a truthy total-page estimate
the remaining time is bucketed into seconds, minutes or hours+minutes;
otherwise the instantaneous rate is reported. -/
def estimate_completion (st : RunStats) (elapsed : ℚ) : String :=
  if st.pages_processed < 2 then "Calculating..."
  else
    let avg := elapsed / (st.pages_processed : ℚ)
    let rate := "Processing " ++ formatFixed2 (1 / avg) ++ " pages/second"
    match st.estimated_total_pages with
    | some total =>
      if total = 0 then rate
      else
        let remaining : Int := total - (st.pages_processed : Int)
        let left : ℚ := (remaining : ℚ) * avg
        if left < 60 then toString (pyInt left) ++ " seconds"
        else if left < 3600 then toString (pyInt (left / 60)) ++ " minutes"
        else toString (pyInt (left / 3600)) ++ " hours, " ++
          toString (pyInt (pyMod left 3600 / 60)) ++ " minutes"
    | none => rate

/-- C6: with a known (truthy) total-page estimate E, P ≥ 2 pages processed
and elapsed time T, the remaining-time value is exactly (E − P) · (T / P)
— unclamped, so possibly negative — and is rendered in the bucket its value
selects: seconds below 60, minutes below 3600, else hours plus minutes. -/
theorem claim6_eta_formula (st : RunStats) (T : ℚ) (E : Int)
    (hE : st.estimated_total_pages = some E) (hE0 : E ≠ 0)
    (hP : 2 ≤ st.pages_processed) :
    (((E : ℚ) - (st.pages_processed : ℚ)) * (T / (st.pages_processed : ℚ)) < 60 →
      estimate_completion st T =
        toString (pyInt (((E : ℚ) - (st.pages_processed : ℚ)) * (T / (st.pages_processed : ℚ)))) ++
          " seconds") ∧
    (60 ≤ ((E : ℚ) - (st.pages_processed : ℚ)) * (T / (st.pages_processed : ℚ)) →
      ((E : ℚ) - (st.pages_processed : ℚ)) * (T / (st.pages_processed : ℚ)) < 3600 →
      estimate_completion st T =
        toString (pyInt (((E : ℚ) - (st.pages_processed : ℚ)) * (T / (st.pages_processed : ℚ)) / 60)) ++
          " minutes") ∧
    (3600 ≤ ((E : ℚ) - (st.pages_processed : ℚ)) * (T / (st.pages_processed : ℚ)) →
      estimate_completion st T =
        toString (pyInt (((E : ℚ) - (st.pages_processed : ℚ)) * (T / (st.pages_processed : ℚ)) / 3600)) ++
          " hours, " ++
        toString (pyInt (pyMod (((E : ℚ) - (st.pages_processed : ℚ)) * (T / (st.pages_processed : ℚ))) 3600 / 60)) ++
          " minutes") := by
  have hlt : ¬ st.pages_processed < 2 := by omega
  have hcast : ((E - (st.pages_processed : Int) : Int) : ℚ) * (T / (st.pages_processed : ℚ)) =
      ((E : ℚ) - (st.pages_processed : ℚ)) * (T / (st.pages_processed : ℚ)) := by
    push_cast
    ring
  refine ⟨?_, ?_, ?_⟩
  · intro h1
    rw [estimate_completion]
    simp only [hlt, if_false, hE, hE0, if_neg hE0]
    rw [hcast, if_pos h1]
  · intro h1 h2
    rw [estimate_completion]
    simp only [hlt, if_false, hE, hE0, if_neg hE0]
    rw [hcast, if_neg (by linarith), if_pos h2]
  · intro h1
    rw [estimate_completion]
    simp only [hlt, if_false, hE, hE0, if_neg hE0]
    rw [hcast, if_neg (by linarith), if_neg (by linarith)]

/-- Witness for C6: estimate 10 pages, 2 processed, 4 time units elapsed
gives (10 − 2) · (4 / 2) = 16, under 60, hence the seconds bucket. -/
theorem claim6_eta_formula_witness :
    estimate_completion ⟨0, 0, 0, 1, 2, some 10⟩ 4 =
      toString (pyInt ((((10 : Int) : ℚ) - ((2 : Nat) : ℚ)) * (4 / ((2 : Nat) : ℚ)))) ++ " seconds" :=
  (claim6_eta_formula ⟨0, 0, 0, 1, 2, some 10⟩ 4 10 rfl (by decide) (by decide)).1
    (by norm_num)

/-- C7: with fewer than 2 pages processed, the Estimator returns the fixed
placeholder, whatever the elapsed time and the total-page estimate. -/
theorem claim7_eta_placeholder (st : RunStats) (T : ℚ)
    (h : st.pages_processed < 2) :
    estimate_completion st T = "Calculating..." := by
  rw [estimate_completion, if_pos h]

/-- Witness for C7 with one page processed, a known estimate and nonzero
elapsed time. -/
theorem claim7_eta_placeholder_witness :
    estimate_completion ⟨5, 1, 2, 1, 1, some 100⟩ 30 = "Calculating..." :=
  claim7_eta_placeholder ⟨5, 1, 2, 1, 1, some 100⟩ 30 (by decide)

/-- Python `s.startswith(pre)`, decided on the character lists. -/
def pyStartsWith (s pre : String) : Bool := pre.data.isPrefixOf s.data

/-- Python `s.strip()` (as applied by `int`): drop whitespace from both
ends. -/
def pyStrip (s : String) : String :=
  ⟨((s.data.dropWhile Char.isWhitespace).reverse.dropWhile Char.isWhitespace).reverse⟩

/-- Python `str.split(sep)` for a one-character separator, on the character
list: adjacent separators and separators at either end produce empty
segments, and the empty string splits to one empty segment. -/
def splitCharAux (sep : Char) : List Char → List (List Char)
  | [] => [[]]
  | c :: cs =>
    let r := splitCharAux sep cs
    if c = sep then [] :: r
    else
      match r with
      | [] => [[c]]
      | h :: t => (c :: h) :: t

/-- Python `s.split(sep)` for a one-character separator string. -/
def pySplitChar (sep : Char) (s : String) : List String :=
  (splitCharAux sep s.data).map (fun l => ⟨l⟩)

/-- Tail of a Python integer-literal digit run: digits with single
underscores allowed only between digits. -/
def pyDigitsTail : List Char → Bool
  | [] => true
  | c :: cs =>
    if c = '_' then
      match cs with
      | [] => false
      | d :: cs2 => d.isDigit && pyDigitsTail cs2
    else c.isDigit && pyDigitsTail cs

/-- A valid Python integer digit run: nonempty, starts with a digit, single
underscores only between digits. -/
def pyDigitsOk : List Char → Bool
  | [] => false
  | d :: ds => d.isDigit && pyDigitsTail ds

/-- Numeric value of a digit run, skipping underscores. -/
def digitsVal (cs : List Char) : Nat :=
  cs.foldl (fun a c => if c = '_' then a else a * 10 + (c.toNat - 48)) 0

/-- Python `int(s)` on a string: strip surrounding whitespace, accept an
optional sign followed by a digit run, and return `none` where Python
raises `ValueError`. -/
def pyStrToInt? (s : String) : Option Int :=
  let cs := (pyStrip s).data
  match cs with
  | [] => none
  | c :: rest =>
    if c = '-' then
      if pyDigitsOk rest then some (-(digitsVal rest : Int)) else none
    else if c = '+' then
      if pyDigitsOk rest then some (digitsVal rest : Int) else none
    else if pyDigitsOk cs then some (digitsVal cs : Int) else none

/-- The page-number extraction of `SpooferCollector.update_progress`: split
the "last page" URL on "&", keep the segments starting with "page=", and
parse what follows the first "=" of the first such segment; any failure
(no segment, no second part, unparseable number — the `ValueError` /
`IndexError` cases) yields `none`. -/
def extract_total_pages (last_url : String) : Option Int :=
  match (pySplitChar '&' last_url).filter (fun seg => pyStartsWith seg "page=") with
  | [] => none
  | seg :: _ =>
    match (pySplitChar '=' seg).get? 1 with
    | none => none
    | some v => pyStrToInt? v

/-- `SpooferCollector.update_progress`: bump the pages-processed counter;
then, only when the estimate is still falsy and the page carries a
`hydra:view` with a `hydra:last` reference, try to extract the total page
count, leaving the estimate untouched on any failure. -/
def update_progress (st : RunStats) (data : Page) : RunStats :=
  let st1 := { st with pages_processed := st.pages_processed + 1 }
  if truthyOptInt st1.estimated_total_pages then st1
  else
    match data.view with
    | none => st1
    | some view =>
      match view.last with
      | none => st1
      | some last_url =>
        match extract_total_pages last_url with
        | none => st1
        | some n => { st1 with estimated_total_pages := some n }

/-- If a character does not occur in a list, splitting on it returns the
whole list as the only segment. -/
theorem splitCharAux_of_not_mem (sep : Char) (l : List Char) (h : sep ∉ l) :
    splitCharAux sep l = [l] := by
  induction l with
  | nil => rfl
  | cons c cs ih =>
    have hc : c ≠ sep := fun hcs => h (hcs ▸ List.mem_cons_self c cs)
    have hcs : sep ∉ cs := fun hm => h (List.mem_cons_of_mem c hm)
    simp [splitCharAux, hc, ih hcs]

/-- If '&' does not occur in a string, `split("&")` returns just that
string. -/
theorem pySplitChar_single (s : String) (h : '&' ∉ s.data) :
    pySplitChar '&' s = [s] := by
  simp [pySplitChar, splitCharAux_of_not_mem '&' s.data h]

/-- Shared fact behind C8 and C10: with the estimate still unset, a page
whose "last" reference fails extraction leaves the estimate unset, still
increments the pages-processed counter, and makes later ETA calls (with at
least 2 pages processed) produce the throughput-only message. -/
theorem update_progress_extract_failure (st : RunStats) (view : HydraView)
    (members : List Session) (last_url : String)
    (hunset : st.estimated_total_pages = none)
    (hview : view.last = some last_url)
    (hbad : extract_total_pages last_url = none) :
    (update_progress st ⟨members, some view⟩).estimated_total_pages = none ∧
    (update_progress st ⟨members, some view⟩).pages_processed = st.pages_processed + 1 ∧
    (∀ T : ℚ, 1 ≤ st.pages_processed →
      estimate_completion (update_progress st ⟨members, some view⟩) T =
        "Processing " ++ formatFixed2 (1 / (T / ((st.pages_processed + 1 : Nat) : ℚ))) ++
          " pages/second") := by
  have hupd : update_progress st ⟨members, some view⟩ =
      { st with pages_processed := st.pages_processed + 1 } := by
    rw [update_progress]
    simp [hunset, truthyOptInt, hview, hbad]
  refine ⟨?_, ?_, ?_⟩
  · rw [hupd]
    exact hunset
  · rw [hupd]
  · intro T hones
    rw [hupd]
    have h2 : ¬ st.pages_processed + 1 < 2 := by omega
    rw [estimate_completion]
    simp only [h2, if_false]
    simp [hunset]

/-- C8: when the estimate is still unset and the page's "last" reference is
malformed (its page-number extraction fails), `update_progress` increments
the page counter but leaves the estimate unset — no exception is possible
in the model — and, once at least 2 pages are processed, the ETA falls back
to the throughput-only pages-per-second message. -/
theorem claim8_malformed_last (st : RunStats) (view : HydraView) (members : List Session)
    (last_url : String) (hunset : st.estimated_total_pages = none)
    (hview : view.last = some last_url)
    (hbad : extract_total_pages last_url = none) :
    (update_progress st ⟨members, some view⟩).estimated_total_pages = none ∧
    (update_progress st ⟨members, some view⟩).pages_processed = st.pages_processed + 1 ∧
    (∀ T : ℚ, 1 ≤ st.pages_processed →
      estimate_completion (update_progress st ⟨members, some view⟩) T =
        "Processing " ++ formatFixed2 (1 / (T / ((st.pages_processed + 1 : Nat) : ℚ))) ++
          " pages/second") :=
  update_progress_extract_failure st view members last_url hunset hview hbad

/-- Witness for C8: a "last" URL whose query string has no page parameter. -/
theorem claim8_malformed_last_witness :
    (update_progress ⟨0, 0, 0, 1, 1, none⟩
        ⟨[], some ⟨some "/sessions?timestamp%5Bafter%5D=2024-01-01", none⟩⟩).estimated_total_pages =
      none :=
  (claim8_malformed_last ⟨0, 0, 0, 1, 1, none⟩
    ⟨some "/sessions?timestamp%5Bafter%5D=2024-01-01", none⟩ []
    "/sessions?timestamp%5Bafter%5D=2024-01-01" rfl rfl (by decide)).1

/-- The first segment of a split is an initial part of the split list. -/
theorem splitCharAux_head_of_self (sep : Char) (l : List Char) :
    ∃ h t, splitCharAux sep l = h :: t ∧ h <+: l := by
  induction l with
  | nil => exact ⟨[], [], rfl, List.nil_prefix⟩
  | cons c cs ih =>
    by_cases hc : c = sep
    · refine ⟨[], splitCharAux sep cs, ?_, List.nil_prefix⟩
      simp [splitCharAux, hc]
    · obtain ⟨h, t, heq, hpfx⟩ := ih
      refine ⟨c :: h, t, ?_, List.cons_prefix_cons.mpr ⟨rfl, hpfx⟩⟩
      simp [splitCharAux, hc, heq]

/-- Every segment of a split other than the first starts right after an
occurrence of the separator: the split list decomposes around a separator
with the segment an initial part of what follows it. -/
theorem splitCharAux_tail_after_sep (sep : Char) (l : List Char) :
    ∀ seg ∈ (splitCharAux sep l).tail, ∃ u v, l = u ++ sep :: v ∧ seg <+: v := by
  induction l with
  | nil =>
    intro seg hseg
    simp [splitCharAux] at hseg
  | cons c cs ih =>
    intro seg hseg
    by_cases hc : c = sep
    · have hseg2 : seg ∈ splitCharAux sep cs := by
        simpa [splitCharAux, hc] using hseg
      obtain ⟨h, t, heq, hpfx⟩ := splitCharAux_head_of_self sep cs
      rw [heq, List.mem_cons] at hseg2
      rcases hseg2 with rfl | hseg2
      · exact ⟨[], cs, by rw [hc]; rfl, hpfx⟩
      · obtain ⟨u, v, hl, hp⟩ := ih seg (by rw [heq]; exact hseg2)
        exact ⟨c :: u, v, by rw [hl]; rfl, hp⟩
    · obtain ⟨h, t, heq, hpfx⟩ := splitCharAux_head_of_self sep cs
      have hseg2 : seg ∈ t := by
        simpa [splitCharAux, hc, heq] using hseg
      obtain ⟨u, v, hl, hp⟩ := ih seg (by rw [heq]; exact hseg2)
      exact ⟨c :: u, v, by rw [hl]; rfl, hp⟩

/-- If a URL does not itself begin with "page=" and "page=" never follows a
"&" in it, then no segment of its split on "&" begins with "page=". -/
theorem split_no_page_segment (url : String)
    (hpre : pyStartsWith url "page=" = false)
    (hamp : ¬ "&page=".data <:+: url.data) :
    (pySplitChar '&' url).filter (fun seg => pyStartsWith seg "page=") = [] := by
  have key : ∀ seg ∈ splitCharAux '&' url.data,
      ("page=".data.isPrefixOf seg) = false := by
    intro seg hmem
    obtain ⟨h, t, heq, hpfx⟩ := splitCharAux_head_of_self '&' url.data
    rw [heq, List.mem_cons] at hmem
    rw [Bool.eq_false_iff]
    intro htrue
    have hps : "page=".data <+: seg := List.isPrefixOf_iff_prefix.mp htrue
    rcases hmem with rfl | hmem
    · have hfull : "page=".data <+: url.data := hps.trans hpfx
      have : pyStartsWith url "page=" = true := by
        rw [pyStartsWith]
        exact List.isPrefixOf_iff_prefix.mpr hfull
      rw [hpre] at this
      exact Bool.false_ne_true this
    · have hmem2 : seg ∈ (splitCharAux '&' url.data).tail := by
        rw [heq]
        exact hmem
      obtain ⟨u, v, hl, hp⟩ := splitCharAux_tail_after_sep '&' url.data seg hmem2
      obtain ⟨w, hw⟩ := hps.trans hp
      apply hamp
      refine ⟨u, w, ?_⟩
      rw [hl, ← hw]
      have hdata : ("&page=".data : List Char) = '&' :: "page=".data := rfl
      rw [hdata]
      simp
  rw [pySplitChar]
  apply List.filter_eq_nil_iff.mpr
  intro x hx
  rw [List.mem_map] at hx
  obtain ⟨seg, hseg, rfl⟩ := hx
  intro htrue
  have hkey := key seg hseg
  have htrue2 : ("page=".data.isPrefixOf seg) = true := htrue
  rw [hkey] at htrue2
  exact Bool.false_ne_true htrue2

/-- C10: the extraction only finds segments that begin with "page=" after
splitting on "&"; for a last-page URL whose page-number parameter appears
immediately after "?" rather than after any "&" — whether it is the only
query parameter or merely the first of several — no segment matches, so
the estimate stays unknown and the ETA falls back to the throughput-only
message.  "After ? rather than after &" is captured by: the URL contains
"?page=", does not itself begin with "page=", and "&page=" occurs nowhere
in it. -/
theorem claim10_first_query_param (st : RunStats) (view : HydraView)
    (members : List Session) (url a b : String)
    (hunset : st.estimated_total_pages = none)
    (hview : view.last = some url)
    (_hshape : url = a ++ "?page=" ++ b)
    (hpre : pyStartsWith url "page=" = false)
    (hamp : ¬ "&page=".data <:+: url.data) :
    extract_total_pages url = none ∧
    (update_progress st ⟨members, some view⟩).estimated_total_pages = none ∧
    (∀ T : ℚ, 1 ≤ st.pages_processed →
      estimate_completion (update_progress st ⟨members, some view⟩) T =
        "Processing " ++ formatFixed2 (1 / (T / ((st.pages_processed + 1 : Nat) : ℚ))) ++
          " pages/second") := by
  have hbad : extract_total_pages url = none := by
    rw [extract_total_pages, split_no_page_segment url hpre hamp]
  exact ⟨hbad, (update_progress_extract_failure st view members url hunset hview hbad).1,
    (update_progress_extract_failure st view members url hunset hview hbad).2.2⟩

/-- Witness for C10: the page parameter is the first of several query
parameters, sitting after "?" with a further parameter after "&". -/
theorem claim10_first_query_param_witness :
    extract_total_pages "https://api.spoofer.caida.org/sessions?page=250&sort=asc" = none ∧
    (update_progress ⟨0, 0, 0, 1, 1, none⟩
        ⟨[], some ⟨some "https://api.spoofer.caida.org/sessions?page=250&sort=asc", none⟩⟩).estimated_total_pages =
      none :=
  ⟨(claim10_first_query_param ⟨0, 0, 0, 1, 1, none⟩
      ⟨some "https://api.spoofer.caida.org/sessions?page=250&sort=asc", none⟩ []
      "https://api.spoofer.caida.org/sessions?page=250&sort=asc"
      "https://api.spoofer.caida.org/sessions" "250&sort=asc"
      rfl rfl rfl (by decide) (by decide)).1,
   (claim10_first_query_param ⟨0, 0, 0, 1, 1, none⟩
      ⟨some "https://api.spoofer.caida.org/sessions?page=250&sort=asc", none⟩ []
      "https://api.spoofer.caida.org/sessions?page=250&sort=asc"
      "https://api.spoofer.caida.org/sessions" "250&sort=asc"
      rfl rfl rfl (by decide) (by decide)).2.1⟩

/-- The retry loop of `SpooferCollector.fetch_page`, instrumented: the
outcome of attempt number `attempt` is given by the oracle (`some` payload
for a successful request, `none` for a raised `RequestException`);
`fuel + 1` attempts remain, the current backoff delay is `delay`.  Returns
the function's result together with the number of attempts performed and
the list of sleeps taken (the delay doubles after each sleep). -/
def fetch_attempts (oracle : Nat → Option Page) :
    Nat → Nat → Nat → Option Page × Nat × List Nat
  | 0, _, _ => (none, 0, [])
  | fuel + 1, attempt, delay =>
    match oracle attempt with
    | some p => (some p, 1, [])
    | none =>
      if fuel = 0 then (none, 1, [])
      else
        let r := fetch_attempts oracle fuel (attempt + 1) (delay * 2)
        (r.1, r.2.1 + 1, delay :: r.2.2)

/-- `SpooferCollector.fetch_page`: at most 3 attempts starting from attempt
0 with an initial retry delay of 2. -/
def fetch_page (oracle : Nat → Option Page) : Option Page × Nat × List Nat :=
  fetch_attempts oracle 3 0 2

/-- C3: when the first two attempts raise a recoverable request error, the
Fetcher makes exactly 3 attempts, sleeping 2 then 4 time units; if the
third attempt succeeds it returns that parsed payload, and if it fails too
the Fetcher returns `none` instead of raising. -/
theorem claim3_fetch_retry (oracle : Nat → Option Page) (p : Page)
    (h0 : oracle 0 = none) (h1 : oracle 1 = none) :
    (oracle 2 = some p → fetch_page oracle = (some p, 3, [2, 4])) ∧
    (oracle 2 = none → fetch_page oracle = (none, 3, [2, 4])) := by
  constructor
  · intro h2
    simp [fetch_page, fetch_attempts, h0, h1, h2]
  · intro h2
    simp [fetch_page, fetch_attempts, h0, h1, h2]

/-- Witness for C3: two failures then a success, and three straight
failures. -/
theorem claim3_fetch_retry_witness :
    fetch_page (fun n => if n = 2 then some ⟨[], none⟩ else none) =
      (some ⟨[], none⟩, 3, [2, 4]) ∧
    fetch_page (fun _ => none) = (none, 3, [2, 4]) :=
  ⟨(claim3_fetch_retry (fun n => if n = 2 then some ⟨[], none⟩ else none)
      ⟨[], none⟩ rfl rfl).1 rfl,
   (claim3_fetch_retry (fun _ => none) ⟨[], none⟩ rfl rfl).2 rfl⟩

/-- The continuation reference the Driver follows:
`"hydra:view" in data and "hydra:next" in data["hydra:view"]`. -/
def pageNext (data : Page) : Option String :=
  match data.view with
  | some view => view.next
  | none => none

/-- The statistics updates one processed page causes in `collect_data`:
`update_progress` plus the three cumulative counters (the page counter is
bumped separately, only when a next reference exists). -/
def absorb_page (st : RunStats) (data : Page) : RunStats :=
  let st1 := update_progress st data
  let out := process_data data.member
  { st1 with
    total_records := st1.total_records + data.member.length,
    total_routed := st1.total_routed + out.routed_count,
    total_private := st1.total_private + out.private_count }

/-- The observable outcome of the pagination loop: final statistics, the
data lines appended to each open file, the URLs fetched in order, and
whether the loop exited on its own (`true`) or only because the fuel ran
out (`false`). -/
structure LoopResult where
  stats : RunStats
  routed_lines : List String
  private_lines : List String
  trace : List String
  completed : Bool
deriving DecidableEq

/-- The `while next_url:` loop of `SpooferCollector.collect_data`, indexed
by fuel.  Each iteration fetches `api_base ++ next_url`; an absent result
breaks out of the loop; otherwise the page is absorbed, its lines are
appended, and the loop follows the `hydra:next` reference if the view
carries one, terminating otherwise. -/
def collect_loop (fetch : String → Option Page) (api_base : String) :
    Nat → RunStats → Option String → List String → List String → List String → LoopResult
  | 0, st, _, r, p, t => ⟨st, r, p, t, false⟩
  | fuel + 1, st, next_url, r, p, t =>
    match next_url with
    | none => ⟨st, r, p, t, true⟩
    | some u =>
      if u.isEmpty then ⟨st, r, p, t, true⟩
      else
        let full_url := api_base ++ u
        match fetch full_url with
        | none => ⟨st, r, p, t ++ [full_url], true⟩
        | some data =>
          let out := process_data data.member
          let st2 := absorb_page st data
          match data.view with
          | none => ⟨st2, r ++ out.routed_lines, p ++ out.private_lines, t ++ [full_url], true⟩
          | some view =>
            match view.next with
            | none => ⟨st2, r ++ out.routed_lines, p ++ out.private_lines, t ++ [full_url], true⟩
            | some nu =>
              collect_loop fetch api_base fuel { st2 with page := st2.page + 1 } (some nu)
                (r ++ out.routed_lines) (p ++ out.private_lines) (t ++ [full_url])

/-- The initial relative URL `f"/sessions?timestamp[after]={start_date}"`. -/
def initial_url (start_date : String) : String :=
  "/sessions?timestamp[after]=" ++ start_date

/-- The 4-line comment header written to both files before any data. -/
def file_header (now start_date : String) : String :=
  "# IPv4 clients that can spoof - Data from CAIDA Spoofer API\n" ++
  "# Collection date: " ++ now ++ "\n" ++
  "# Data period: " ++ start_date ++ " to present\n" ++
  "# Format: Formatted text\n\n"

/-- Each data line is written with a trailing newline appended. -/
def join_written_lines (lines : List String) : String :=
  String.join (lines.map (fun l => l ++ "\n"))

/-- The fresh statistics of `SpooferCollector.__init__`. -/
def initial_stats : RunStats := ⟨0, 0, 0, 1, 0, none⟩

/-- The final summary printed after the loop, from the final statistics. -/
def summary_lines (st : RunStats) (routed_output private_output : String)
    (elapsed : ℚ) : List String :=
  ["Data collection complete.",
   "Total records processed: " ++ toString st.total_records,
   "IPv4 clients that can spoof routed addresses: " ++ toString st.total_routed,
   "IPv4 clients that can spoof private addresses: " ++ toString st.total_private,
   "Results saved to: " ++ routed_output ++ " and " ++ private_output,
   "Total time: " ++ pyTimedeltaStr (pyInt elapsed)]

/-- The observable outcome of one whole `collect_data` run: the full
contents of both output files, the final statistics, the fetch trace, the
completion flag, and the printed summary. -/
structure RunResult where
  routed_content : String
  private_content : String
  stats : RunStats
  trace : List String
  completed : Bool
  summary : List String
deriving DecidableEq

/-- `SpooferCollector.collect_data`: open both files, write the header to
each, run the pagination loop from the initial URL, and print the final
summary whatever way the loop ended. -/
def collect_data (fetch : String → Option Page) (fuel : Nat)
    (start_date now routed_output private_output api_base : String)
    (elapsed : ℚ) : RunResult :=
  let header := file_header now start_date
  let res := collect_loop fetch api_base fuel initial_stats
    (some (initial_url start_date)) [] [] []
  ⟨header ++ join_written_lines res.routed_lines,
   header ++ join_written_lines res.private_lines,
   res.stats, res.trace, res.completed,
   summary_lines res.stats routed_output private_output elapsed⟩

/-- Appending the empty string on the right changes nothing. -/
theorem string_append_empty (s : String) : s ++ "" = s := by
  cases s with
  | mk data =>
    show String.mk (data ++ []) = String.mk data
    rw [List.append_nil]

/-- The fetch trace only ever grows: whatever the loop returns extends the
trace accumulator it was started with. -/
theorem collect_loop_trace_extends (fetch : String → Option Page) (api_base : String) :
    ∀ fuel st next_url r p t,
      ∃ s, (collect_loop fetch api_base fuel st next_url r p t).trace = t ++ s := by
  intro fuel
  induction fuel with
  | zero =>
    intro st next_url r p t
    exact ⟨[], by simp [collect_loop]⟩
  | succ fuel ih =>
    intro st next_url r p t
    match next_url with
    | none => exact ⟨[], by simp [collect_loop]⟩
    | some u =>
      by_cases hu : u.isEmpty
      · exact ⟨[], by simp [collect_loop, hu]⟩
      · rcases hf : fetch (api_base ++ u) with _ | data
        · exact ⟨[api_base ++ u], by simp [collect_loop, hu, hf]⟩
        · rcases hv : data.view with _ | view
          · exact ⟨[api_base ++ u], by simp [collect_loop, hu, hf, hv]⟩
          · rcases hn : view.next with _ | nu
            · exact ⟨[api_base ++ u], by simp [collect_loop, hu, hf, hv, hn]⟩
            · obtain ⟨s, hs⟩ := ih { absorb_page st data with page := (absorb_page st data).page + 1 }
                (some nu) (r ++ (process_data data.member).routed_lines)
                (p ++ (process_data data.member).private_lines) (t ++ [api_base ++ u])
              refine ⟨[api_base ++ u] ++ s, ?_⟩
              rw [collect_loop]
              simp only [hu, Bool.false_eq_true, if_false, hf, hv, hn]
              rw [hs, List.append_assoc]

/-- C2: after successfully processing the page at `u`, the Driver fetches a
further page iff that page carries a next-page reference: without one the
loop returns at once, its trace extended by exactly the one URL just
fetched and the completion flag set; with one, the loop continues at the
referenced URL, and the very next fetch performed is that URL. -/
theorem claim2_pagination (fetch : String → Option Page) (api_base : String)
    (fuel : Nat) (st : RunStats) (u : String) (r p t : List String) (data : Page)
    (hu : u.isEmpty = false) (hf : fetch (api_base ++ u) = some data) :
    (pageNext data = none →
      collect_loop fetch api_base (fuel + 1) st (some u) r p t =
        ⟨absorb_page st data, r ++ (process_data data.member).routed_lines,
         p ++ (process_data data.member).private_lines, t ++ [api_base ++ u], true⟩) ∧
    (∀ nu, pageNext data = some nu →
      collect_loop fetch api_base (fuel + 1) st (some u) r p t =
        collect_loop fetch api_base fuel
          { absorb_page st data with page := (absorb_page st data).page + 1 } (some nu)
          (r ++ (process_data data.member).routed_lines)
          (p ++ (process_data data.member).private_lines) (t ++ [api_base ++ u])) ∧
    (∀ nu, pageNext data = some nu → nu.isEmpty = false →
      ∃ rest, (collect_loop fetch api_base (fuel + 2) st (some u) r p t).trace =
        t ++ [api_base ++ u, api_base ++ nu] ++ rest) := by
  refine ⟨?_, ?_, ?_⟩
  · intro hnone
    rcases hv : data.view with _ | view
    · rw [collect_loop]
      simp only [hu, Bool.false_eq_true, if_false, hf, hv]
    · have hn : view.next = none := by
        rw [pageNext, hv] at hnone
        exact hnone
      rw [collect_loop]
      simp only [hu, Bool.false_eq_true, if_false, hf, hv, hn]
  · intro nu hnext
    rcases hv : data.view with _ | view
    · rw [pageNext, hv] at hnext
      exact absurd hnext (by simp)
    · have hn : view.next = some nu := by
        rw [pageNext, hv] at hnext
        exact hnext
      rw [collect_loop]
      simp only [hu, Bool.false_eq_true, if_false, hf, hv, hn]
  · intro nu hnext hnu
    rcases hv : data.view with _ | view
    · rw [pageNext, hv] at hnext
      exact absurd hnext (by simp)
    · have hn : view.next = some nu := by
        rw [pageNext, hv] at hnext
        exact hnext
      rw [collect_loop]
      simp only [hu, Bool.false_eq_true, if_false, hf, hv, hn]
      rcases hf2 : fetch (api_base ++ nu) with _ | data2
      · refine ⟨[], ?_⟩
        rw [collect_loop]
        simp [hnu, hf2]
      · rcases hv2 : data2.view with _ | view2
        · refine ⟨[], ?_⟩
          rw [collect_loop]
          simp [hnu, hf2, hv2]
        · rcases hn2 : view2.next with _ | nu2
          · refine ⟨[], ?_⟩
            rw [collect_loop]
            simp [hnu, hf2, hv2, hn2]
          · obtain ⟨s, hs⟩ := collect_loop_trace_extends fetch api_base fuel
              { absorb_page { absorb_page st data with
                  page := (absorb_page st data).page + 1 } data2 with
                page := (absorb_page { absorb_page st data with
                  page := (absorb_page st data).page + 1 } data2).page + 1 }
              (some nu2)
              ((r ++ (process_data data.member).routed_lines) ++ (process_data data2.member).routed_lines)
              ((p ++ (process_data data.member).private_lines) ++ (process_data data2.member).private_lines)
              ((t ++ [api_base ++ u]) ++ [api_base ++ nu])
            refine ⟨s, ?_⟩
            rw [collect_loop]
            simp only [hnu, Bool.false_eq_true, if_false, hf2, hv2, hn2]
            rw [hs]
            simp

/-- Witness for C2: a single page with no view block terminates the loop
after exactly one fetch. -/
theorem claim2_pagination_witness :
    collect_loop (fun _ => some ⟨[], none⟩) "B" 1 initial_stats (some "/u") [] [] [] =
      ⟨absorb_page initial_stats ⟨[], none⟩,
       [] ++ (process_data ([] : List Session)).routed_lines,
       [] ++ (process_data ([] : List Session)).private_lines,
       [] ++ ["B" ++ "/u"], true⟩ :=
  (claim2_pagination (fun _ => some ⟨[], none⟩) "B" 0 initial_stats "/u" [] [] []
    ⟨[], none⟩ (by decide) rfl).1 rfl

/-- The initial relative URL is never the empty string. -/
theorem initial_url_not_empty (sd : String) : (initial_url sd).isEmpty = false := by
  rw [Bool.eq_false_iff]
  intro h
  have hempty : initial_url sd = "" := (String.isEmpty_iff _).mp h
  have hdata : (initial_url sd).data = [] := by rw [hempty]
  rw [initial_url, String.data_append] at hdata
  simp at hdata

/-- C5: when the Fetcher comes back empty, the Driver ends the run
gracefully.  First clause: at any loop state, a `none` fetch result makes
the loop return at once — the loop exits on its own (no crash), every line
appended so far is kept untouched, and the statistics the summary is
printed from are exactly those accumulated so far.  Second clause: a whole
`collect_data` run whose very first fetch fails still produces both files
with their headers intact and still prints the full final summary. -/
theorem claim5_graceful_termination :
    (∀ (fetch : String → Option Page) (api_base : String) (fuel : Nat)
        (st : RunStats) (u : String) (r p t : List String),
      u.isEmpty = false → fetch (api_base ++ u) = none →
      collect_loop fetch api_base (fuel + 1) st (some u) r p t =
        ⟨st, r, p, t ++ [api_base ++ u], true⟩) ∧
    (∀ (fuel : Nat) (sd now ro po ab : String) (el : ℚ),
      collect_data (fun _ => none) (fuel + 1) sd now ro po ab el =
        ⟨file_header now sd, file_header now sd, initial_stats,
         [ab ++ initial_url sd], true,
         summary_lines initial_stats ro po el⟩) := by
  have hloop : ∀ (fetch : String → Option Page) (api_base : String) (fuel : Nat)
      (st : RunStats) (u : String) (r p t : List String),
      u.isEmpty = false → fetch (api_base ++ u) = none →
      collect_loop fetch api_base (fuel + 1) st (some u) r p t =
        ⟨st, r, p, t ++ [api_base ++ u], true⟩ := by
    intro fetch api_base fuel st u r p t hu hf
    rw [collect_loop]
    simp only [hu, Bool.false_eq_true, if_false, hf]
  refine ⟨hloop, ?_⟩
  intro fuel sd now ro po ab el
  rw [collect_data]
  rw [hloop (fun _ => none) ab fuel initial_stats (initial_url sd) [] [] []
    (initial_url_not_empty sd) rfl]
  have hj : join_written_lines [] = "" := rfl
  rw [hj, string_append_empty]
  simp

/-- Witness for C5: the loop clause at a concrete state and the whole-run
clause at concrete arguments. -/
theorem claim5_graceful_termination_witness :
    collect_loop (fun _ => none) "B" 1 initial_stats (some "/u") ["x"] ["y"] [] =
      ⟨initial_stats, ["x"], ["y"], [] ++ ["B" ++ "/u"], true⟩ ∧
    collect_data (fun _ => none) 1 "2024-01-01" "2025-01-01 00:00:00"
        "routed.txt" "private.txt" "https://api" 10 =
      ⟨file_header "2025-01-01 00:00:00" "2024-01-01",
       file_header "2025-01-01 00:00:00" "2024-01-01", initial_stats,
       ["https://api" ++ initial_url "2024-01-01"], true,
       summary_lines initial_stats "routed.txt" "private.txt" 10⟩ :=
  ⟨claim5_graceful_termination.1 (fun _ => none) "B" 0 initial_stats "/u"
      ["x"] ["y"] [] (by decide) rfl,
   claim5_graceful_termination.2 0 "2024-01-01" "2025-01-01 00:00:00"
      "routed.txt" "private.txt" "https://api" 10⟩
